import Mathlib

/-!
Shallow embedding of the WhatsApp session service (src/src/server.ts,
Baileys + remote-storage variant, lines 470-1005).  Remote object storage
and the local credential folder are modelled as association lists from
file name to file content; fallible store calls are driven by an explicit
environment of failure flags.
-/

namespace WA

/-- Lookup of a key in an association list of (name, content) pairs. -/
def getVal : List (String × String) → String → Option String
  | [], _ => none
  | e :: rest, k => if e.1 = k then some e.2 else getVal rest k

/-- Upsert write: overwrite the entry at the key if present, append otherwise.
Models both a storage upload with upsert true and fs.writeFileSync. -/
def setEntry : List (String × String) → String → String → List (String × String)
  | [], k, v => [(k, v)]
  | e :: rest, k, v => if e.1 = k then (k, v) :: rest else e :: setEntry rest k v

/-- The keys of an association list. -/
def keys : List (String × String) → List String
  | [] => []
  | e :: rest => e.1 :: keys rest

theorem getVal_setEntry_self (l : List (String × String)) (k v : String) :
    getVal (setEntry l k v) k = some v := by
  induction l with
  | nil => simp [setEntry, getVal]
  | cons e rest ih =>
    by_cases h : e.1 = k
    · simp [setEntry, h, getVal]
    · simp [setEntry, h, getVal, ih]

theorem getVal_setEntry_ne (l : List (String × String)) (k v n : String) (h : n ≠ k) :
    getVal (setEntry l k v) n = getVal l n := by
  induction l with
  | nil =>
    have hkn : ¬ (k = n) := fun hh => h hh.symm
    simp [setEntry, getVal, hkn]
  | cons e rest ih =>
    by_cases he : e.1 = k
    · have hkn : ¬ (k = n) := fun hh => h hh.symm
      have hen : ¬ (e.1 = n) := by rw [he]; exact hkn
      simp only [setEntry, if_pos he, getVal, if_neg hkn, if_neg hen]
    · simp only [setEntry, if_neg he, getVal]
      by_cases hn : e.1 = n
      · simp [hn]
      · simp [hn, ih]

theorem mem_keys_setEntry (l : List (String × String)) (k v x : String)
    (h : x ∈ keys (setEntry l k v)) : x ∈ keys l ∨ x = k := by
  induction l with
  | nil =>
    simp [setEntry, keys] at h
    exact Or.inr h
  | cons e rest ih =>
    by_cases he : e.1 = k
    · rw [show setEntry (e :: rest) k v = (k, v) :: rest by simp [setEntry, he]] at h
      simp only [keys, List.mem_cons] at h ⊢
      rcases h with h | h
      · exact Or.inr h
      · exact Or.inl (Or.inr h)
    · rw [show setEntry (e :: rest) k v = e :: setEntry rest k v by simp [setEntry, he]] at h
      simp only [keys, List.mem_cons] at h ⊢
      rcases h with h | h
      · exact Or.inl (Or.inl h)
      · rcases ih h with h2 | h2
        · exact Or.inl (Or.inr h2)
        · exact Or.inr h2

theorem keys_nodup_setEntry (l : List (String × String)) (k v : String)
    (h : (keys l).Nodup) : (keys (setEntry l k v)).Nodup := by
  induction l with
  | nil => simp [setEntry, keys]
  | cons e rest ih =>
    simp only [keys, List.nodup_cons] at h
    by_cases he : e.1 = k
    · rw [show setEntry (e :: rest) k v = (k, v) :: rest by simp [setEntry, he]]
      simp only [keys, List.nodup_cons]
      exact ⟨he ▸ h.1, h.2⟩
    · rw [show setEntry (e :: rest) k v = e :: setEntry rest k v by simp [setEntry, he]]
      simp only [keys, List.nodup_cons]
      refine ⟨fun hmem => ?_, ih h.2⟩
      rcases mem_keys_setEntry rest k v e.1 hmem with h2 | h2
      · exact h.1 h2
      · exact he h2

/-- Best-effort batch of upsert writes: write each name in order, skipping
names the skip oracle flags (a failed upload or download is reported and
skipped, never thrown). -/
def writeAll (skip : String → Bool) (value : String → String) :
    List String → List (String × String) → List (String × String)
  | [], l => l
  | n :: rest, l =>
    writeAll skip value rest (if skip n then l else setEntry l n (value n))

theorem getVal_writeAll_not_mem (skip : String → Bool) (value : String → String)
    (names : List String) (l : List (String × String)) (n : String) (hn : n ∉ names) :
    getVal (writeAll skip value names l) n = getVal l n := by
  induction names generalizing l with
  | nil => rfl
  | cons m rest ih =>
    have hnm : n ≠ m := fun h => hn (h ▸ List.mem_cons_self m rest)
    have hrest : n ∉ rest := fun h => hn (List.mem_cons_of_mem m h)
    by_cases hs : skip m
    · simpa [writeAll, hs] using ih (l := l) hrest
    · rw [show writeAll skip value (m :: rest) l
          = writeAll skip value rest (setEntry l m (value m)) by simp [writeAll, hs]]
      rw [ih (l := setEntry l m (value m)) hrest]
      exact getVal_setEntry_ne l m (value m) n hnm

theorem getVal_writeAll_mem (skip : String → Bool) (value : String → String)
    (names : List String) (l : List (String × String)) (n : String)
    (hd : names.Nodup) (hn : n ∈ names) (hs : skip n = false) :
    getVal (writeAll skip value names l) n = some (value n) := by
  induction names generalizing l with
  | nil => cases hn
  | cons m rest ih =>
    have hd2 : m ∉ rest ∧ rest.Nodup := List.nodup_cons.mp hd
    rcases List.mem_cons.mp hn with h | h
    · subst h
      rw [show writeAll skip value (n :: rest) l
            = writeAll skip value rest (setEntry l n (value n)) by simp [writeAll, hs]]
      rw [getVal_writeAll_not_mem skip value rest _ n hd2.1]
      exact getVal_setEntry_self l n (value n)
    · by_cases hsm : skip m
      · rw [show writeAll skip value (m :: rest) l
              = writeAll skip value rest l by simp [writeAll, hsm]]
        exact ih l hd2.2 h
      · rw [show writeAll skip value (m :: rest) l
              = writeAll skip value rest (setEntry l m (value m)) by simp [writeAll, hsm]]
        exact ih _ hd2.2 h

theorem getVal_writeAll_skip (skip : String → Bool) (value : String → String)
    (names : List String) (l : List (String × String)) (n : String)
    (hd : names.Nodup) (hn : n ∈ names) (hs : skip n = true) :
    getVal (writeAll skip value names l) n = getVal l n := by
  induction names generalizing l with
  | nil => cases hn
  | cons m rest ih =>
    have hd2 : m ∉ rest ∧ rest.Nodup := List.nodup_cons.mp hd
    rcases List.mem_cons.mp hn with h | h
    · subst h
      have hrest : n ∉ rest := hd2.1
      rw [show writeAll skip value (n :: rest) l
            = writeAll skip value rest l by simp [writeAll, hs]]
      exact getVal_writeAll_not_mem skip value rest l n hrest
    · have hnm : n ≠ m := fun heq => hd2.1 (heq ▸ h)
      by_cases hsm : skip m
      · rw [show writeAll skip value (m :: rest) l
              = writeAll skip value rest l by simp [writeAll, hsm]]
        exact ih l hd2.2 h
      · rw [show writeAll skip value (m :: rest) l
              = writeAll skip value rest (setEntry l m (value m)) by simp [writeAll, hsm]]
        rw [ih _ hd2.2 h]
        exact getVal_setEntry_ne l m (value m) n hnm

theorem keys_nodup_writeAll (skip : String → Bool) (value : String → String)
    (names : List String) (l : List (String × String)) (h : (keys l).Nodup) :
    (keys (writeAll skip value names l)).Nodup := by
  induction names generalizing l with
  | nil => exact h
  | cons m rest ih =>
    by_cases hs : skip m
    · rw [show writeAll skip value (m :: rest) l
            = writeAll skip value rest l by simp [writeAll, hs]]
      exact ih l h
    · rw [show writeAll skip value (m :: rest) l
            = writeAll skip value rest (setEntry l m (value m)) by simp [writeAll, hs]]
      exact ih _ (keys_nodup_setEntry l m (value m) h)

/-! Credential store bridge (loadAuthFromStorage, syncAuthToStorage,
clearAuthStorage). -/

/-- Failure oracle for the remote object store: whether the list call fails
and which per-file downloads and uploads fail. -/
structure StoreEnv where
  listFails : Bool
  downloadFails : String → Bool
  uploadFails : String → Bool

/-- Combined state of the remote store (entries under the session folder of
the bucket, keyed by file name) and the local credential folder
(none when the folder does not exist). -/
structure StoreState where
  bucketExists : Bool
  remote : List (String × String)
  localDir : Option (List (String × String))
deriving DecidableEq

/-- The remote key prefix for the session (storage key is this plus "/" plus
the file name), default of BAILEYS_STORAGE_PREFIX in the source. -/
def storagePfx : String := "baileys"

/-- Full remote key for a local file name, as built by syncAuthToStorage. -/
def uploadPath (n : String) : String := storagePfx ++ "/" ++ n

/-- fs.mkdirSync(authFolder, recursive true): create the folder if absent,
keep its contents if present. -/
def ensureAuthFolder (s : StoreState) : StoreState :=
  { s with localDir := some (s.localDir.getD []) }

/-- supabase.storage.createBucket with an already-exists error swallowed. -/
def ensureStorageBucket (s : StoreState) : StoreState :=
  { s with bucketExists := true }

/-- storageClient.list(storagePrefix, limit 1000): the names of the first
1000 entries under the session folder. -/
def listedNames (r : List (String × String)) : List String :=
  (keys r).take 1000

/-- Names of the files in the local credential folder (fs.readdirSync). -/
def localNames (s : StoreState) : List String :=
  keys (s.localDir.getD [])

/-- Whether a listed entry name ends in a slash (a folder marker). -/
def endsWithSlash (n : String) : Bool := n.data.getLast? = some '/'

/-- A listed entry is skipped by loadAuthFromStorage when its name is empty
or ends in a slash, when its download fails, or when the object is missing. -/
def loadSkip (env : StoreEnv) (r : List (String × String)) (n : String) : Bool :=
  decide (n = "") || endsWithSlash n || env.downloadFails n || (getVal r n).isNone

/-- loadAuthFromStorage: ensure the local folder and the bucket exist, list
the remote session entries, and download each into the local folder,
overwriting local copies; a failed listing or an empty listing just returns,
and a failed download skips only that file. -/
def loadAuthFromStorage (env : StoreEnv) (s : StoreState) : StoreState :=
  let s1 := ensureStorageBucket (ensureAuthFolder s)
  if env.listFails then s1
  else
    let names := listedNames s1.remote
    if names.isEmpty then s1
    else
      { s1 with
        localDir := some (writeAll (loadSkip env s1.remote)
          (fun n => (getVal s1.remote n).getD "") names (s1.localDir.getD [])) }

/-- syncAuthToStorage: upload every file of the local credential folder to
the remote session folder with upsert semantics; a failed upload is
reported and the other uploads still complete. -/
def syncAuthToStorage (env : StoreEnv) (s : StoreState) : StoreState :=
  let s1 := ensureAuthFolder s
  let dir := s1.localDir.getD []
  { s1 with
    remote := writeAll env.uploadFails (fun n => (getVal dir n).getD "") (keys dir) s1.remote }

/-- The remote keys syncAuthToStorage attempts to upload, one per local file. -/
def syncUploadAttempts (s : StoreState) : List String :=
  (localNames s).map uploadPath

/-- The per-file upload failures syncAuthToStorage reports (console.warn). -/
def syncReportedFailures (env : StoreEnv) (s : StoreState) : List String :=
  (localNames s).filter env.uploadFails

/-- clearAuthStorage: list the remote session entries and remove them in one
batch call; a failed or empty listing returns with no changes.  The local
folder is never touched here. -/
def clearAuthStorage (env : StoreEnv) (s : StoreState) : StoreState :=
  if env.listFails then s
  else
    let names := listedNames s.remote
    if names.isEmpty then s
    else { s with remote := s.remote.filter (fun e => !(decide (e.1 ∈ names))) }

/-! Connection state machine: the connection.update handler wired in
startWhatsApp. -/

/-- The single status row (whatsapp_status, id 1); updateStatus patches a
subset of the fields, the others keep their previous value. -/
structure Snapshot where
  status : String
  qr_code : Option String
  connected_number : Option String
  last_connected_at : Option Nat
  last_error : Option String
deriving DecidableEq

/-- One connection.update event as seen by the handler: the optional
connection phase, the optional pairing QR payload, the status code carried
by lastDisconnect, the socket user id at that moment, and the clock. -/
structure ConnUpdate where
  connection : Option String
  qr : Option String
  lastDisconnectCode : Option Nat
  userJid : Option String
  now : Nat
deriving DecidableEq

/-- QRCode.toDataURL: renders the QR payload as a data-URL image string. -/
def qrDataURL (q : String) : String := "data:image/png;base64," ++ q

/-- DisconnectReason.loggedOut of the Baileys library. -/
def disconnectReasonLoggedOut : Nat := 401

/-- The close-reason text published on a close event: the distinguished
logged-out message for the logged-out status code, otherwise the code in
parentheses with unknown substituted when absent. -/
def closeReasonText (code : Option Nat) : String :=
  if code = some disconnectReasonLoggedOut then "Logged out"
  else
    "Connection closed ("
      ++ (match code with
          | some c => toString c
          | none => "unknown")
      ++ ")"

/-- parseConnectedNumber: take the part of the jid before the first at sign,
then before the first colon; a missing or empty jid gives null. -/
def parseConnectedNumber (jid : Option String) : Option String :=
  match jid with
  | none => none
  | some j =>
    if j = "" then none
    else some (((((j.splitOn "@").headD "").splitOn ":").headD ""))

/-- The connection.update handler body: the qr branch publishes connecting
with the rendered code, the open branch publishes connected clearing the
code, and the close branch publishes disconnected with the close reason.
Each branch patches only its own fields of the snapshot row. -/
def applyConnUpdate (s : Snapshot) (u : ConnUpdate) : Snapshot :=
  let s1 :=
    match u.qr with
    | some q => { s with status := "connecting", qr_code := some (qrDataURL q), last_error := none }
    | none => s
  let s2 :=
    if u.connection = some "open" then
      { s1 with
        status := "connected"
        connected_number := parseConnectedNumber u.userJid
        last_connected_at := some u.now
        qr_code := none
        last_error := none }
    else s1
  if u.connection = some "close" then
    { s2 with status := "disconnected", last_error := some (closeReasonText u.lastDisconnectCode) }
  else s2

/-- The snapshot after a sequence of connection.update events. -/
def runConnUpdates (init : Snapshot) (us : List ConnUpdate) : Snapshot :=
  us.foldl applyConnUpdate init

/-! Session controller: startWhatsApp and the /api/control handler. -/

/-- Atomic controller actions, for teardown-versus-construction ordering. -/
inductive Act where
  | teardown (gen : Nat)
  | construct (gen : Nat)
  | rmLocalDir
  | clearRemote
deriving DecidableEq

def Act.isTeardown : Act → Bool
  | teardown _ => true
  | _ => false

/-- Holds when no socket construction in the trace precedes a teardown:
every teardown of a previous socket is settled before a new socket is
constructed. -/
def tdBeforeCons : List Act → Bool
  | [] => true
  | Act.construct _ :: rest => rest.all (fun a => !a.isTeardown) && tdBeforeCons rest
  | _ :: rest => tdBeforeCons rest

/-- Whole-process state: the credential store, the number of sockets
constructed so far (the generation counter), the generations of sockets
whose connection is still live, and the socket the waSocket variable
points at. -/
structure SysState where
  store : StoreState
  gen : Nat
  live : List Nat
  waSocket : Option Nat
deriving DecidableEq

/-- startWhatsApp: load credentials from remote storage, construct a fresh
socket over the local folder, wire its handlers, and record it in waSocket. -/
def startWhatsApp (env : StoreEnv) (s : SysState) : SysState × List Act :=
  let st := loadAuthFromStorage env s.store
  let g := s.gen + 1
  ({ store := st, gen := g, live := g :: s.live, waSocket := some g }, [Act.construct g])

/-- Terminate the tracked socket if one is present (waSocket end or logout:
either ends the live connection of that socket). -/
def teardownCurrent (s : SysState) : SysState × List Act :=
  match s.waSocket with
  | some g => ({ s with live := s.live.filter (fun x => decide (x ≠ g)) }, [Act.teardown g])
  | none => (s, [])

/-- JavaScript truthiness of an optional string body field. -/
def falsyStr : Option String → Bool
  | none => true
  | some s => decide (s = "")

/-- An HTTP response of the control surface. -/
structure Resp where
  statusCode : Nat
  success : Bool
  message : Option String
deriving DecidableEq

/-- Result of the /api/control handler: the response, the state it leaves
behind, and the trace of socket and store actions it performed. -/
structure ControlResult where
  resp : Resp
  state : SysState
  trace : List Act
deriving DecidableEq

/-- The /api/control handler: a missing action or an unknown action answers
400 with a message and touches nothing; restart ends the current socket and
re-runs startWhatsApp; logout logs the socket out and clears remote
credentials; clear_session logs out, removes the local folder, clears
remote credentials and re-runs startWhatsApp. -/
def handleControl (env : StoreEnv) (action : Option String) (s : SysState) : ControlResult :=
  if falsyStr action then ⟨⟨400, false, some "Action required."⟩, s, []⟩
  else if action = some "restart" then
    let td := teardownCurrent s
    let r := startWhatsApp env td.1
    ⟨⟨200, true, none⟩, r.1, td.2 ++ r.2⟩
  else if action = some "logout" then
    let td := teardownCurrent s
    let s2 := { td.1 with store := clearAuthStorage env td.1.store }
    ⟨⟨200, true, none⟩, s2, td.2 ++ [Act.clearRemote]⟩
  else if action = some "clear_session" then
    let td := teardownCurrent s
    let s2 := { td.1 with store := { td.1.store with localDir := none } }
    let s3 := { s2 with store := clearAuthStorage env s2.store }
    let r := startWhatsApp env s3
    ⟨⟨200, true, none⟩, r.1, td.2 ++ [Act.rmLocalDir, Act.clearRemote] ++ r.2⟩
  else ⟨⟨400, false, some "Invalid action."⟩, s, []⟩

/-- The single-live-socket invariant: either no socket connection is live,
or exactly the socket tracked by waSocket is live. -/
def SocketInv (s : SysState) : Prop :=
  s.live = [] ∨ ∃ g, s.live = [g] ∧ s.waSocket = some g

/-- startWhatsApp with the possibility that socket construction throws. -/
def startWhatsAppE (env : StoreEnv) (constructThrows : Bool) (s : SysState) :
    Except String (SysState × List Act) :=
  if constructThrows then Except.error "makeWASocket threw"
  else Except.ok (startWhatsApp env s)

/-- Outcome of the top-level startup: the resulting state and the status
patches (status, last_error) published by the catch handler. -/
structure BootResult where
  state : SysState
  published : List (String × Option String)
deriving DecidableEq

/-- The top-level startWhatsApp().catch(...) wiring: a startup failure is
caught, publishes a disconnected status patch, and leaves the state as it
was so a later restart can recover. -/
def bootWithCatch (env : StoreEnv) (constructThrows : Bool) (s : SysState) : BootResult :=
  match startWhatsAppE env constructThrows s with
  | Except.ok (s2, _) => ⟨s2, []⟩
  | Except.error _ => ⟨s, [("disconnected", some "Failed to start WhatsApp")]⟩

/-! The /api/send-otp handler. -/

/-- The authenticated identity attached to a socket, when pairing finished. -/
structure WaUser where
  id : Option String
deriving DecidableEq

/-- The socket handle as the send handler sees it. -/
structure WaSocket where
  user : Option WaUser
deriving DecidableEq

/-- The digits kept by the replace call of the handler: every character
outside 0-9 is deleted. -/
def digitsOf (s : String) : String := String.mk (s.data.filter Char.isDigit)

/-- The chat id the handler sends to: the digits of the phone number with
the s.whatsapp.net domain appended. -/
def chatIdOf (s : String) : String := digitsOf s ++ "@s.whatsapp.net"

/-- Result of the /api/send-otp handler: the response, the last_error
values written to the status row by this request, and the (chatId, text)
messages handed to the socket. -/
structure SendResult where
  resp : Resp
  statusWrites : List String
  sent : List (String × String)
deriving DecidableEq

/-- The /api/send-otp handler: validate the body, answer 503 when no
authenticated socket exists, otherwise normalize the phone number and send;
a transport send failure writes last_error and answers 500. -/
def handleSendOtp (sock : Option WaSocket) (sendErr : Option String)
    (phoneNumber message : Option String) : SendResult :=
  if falsyStr phoneNumber || falsyStr message then
    ⟨⟨400, false, some "phoneNumber and message required."⟩, [], []⟩
  else
    match sock with
    | none => ⟨⟨503, false, some "WhatsApp service is not connected."⟩, [], []⟩
    | some w =>
      match w.user with
      | none => ⟨⟨503, false, some "WhatsApp service is not connected."⟩, [], []⟩
      | some _ =>
        match sendErr with
        | some m => ⟨⟨500, false, some "Failed to send WhatsApp message."⟩, [m], []⟩
        | none =>
          ⟨⟨200, true, none⟩, [], [(chatIdOf (phoneNumber.getD ""), message.getD "")]⟩

/-! Theorems. -/

theorem applyConnUpdate_connected_qr_none (s : Snapshot) (u : ConnUpdate)
    (h : s.status = "connected" → s.qr_code = none) :
    (applyConnUpdate s u).status = "connected" → (applyConnUpdate s u).qr_code = none := by
  have hco : (some "close" : Option String) ≠ some "open" := by decide
  by_cases hc : u.connection = some "close"
  · have hst : (applyConnUpdate s u).status = "disconnected" := by
      simp [applyConnUpdate, hc, hco]
    intro h2
    rw [hst] at h2
    exact absurd h2 (by decide)
  · by_cases ho : u.connection = some "open"
    · have hqr : (applyConnUpdate s u).qr_code = none := by
        simp [applyConnUpdate, hc, ho, hco.symm]
      intro _
      exact hqr
    · cases hq : u.qr with
      | some q =>
        have hst : (applyConnUpdate s u).status = "connecting" := by
          simp [applyConnUpdate, hc, ho, hq]
        intro h2
        rw [hst] at h2
        exact absurd h2 (by decide)
      | none =>
        have he : applyConnUpdate s u = s := by
          simp [applyConnUpdate, hc, ho, hq]
        rw [he]
        exact h

theorem runConnUpdates_connected_qr_none (init : Snapshot) (us : List ConnUpdate)
    (h : init.status = "connected" → init.qr_code = none) :
    (runConnUpdates init us).status = "connected" → (runConnUpdates init us).qr_code = none := by
  induction us generalizing init with
  | nil => exact h
  | cons u rest ih =>
    exact ih (applyConnUpdate init u) (applyConnUpdate_connected_qr_none init u h)

/-- C1 (amended): the QR branch publishes status connecting with a non-null
rendered qr_code, the open branch publishes status connected with qr_code
null, and along every event sequence qr_code is null whenever status is
connected.  The close branch, however, leaves qr_code unchanged, so after a
close the snapshot can be disconnected with a non-null qr_code. -/
theorem qr_lifecycle_spec :
    (∀ (init : Snapshot) (us : List ConnUpdate),
        (init.status = "connected" → init.qr_code = none) →
        ((runConnUpdates init us).status = "connected" →
          (runConnUpdates init us).qr_code = none))
    ∧ (∀ (s : Snapshot) (u : ConnUpdate) (q : String),
        u.qr = some q → u.connection = none →
        (applyConnUpdate s u).status = "connecting"
          ∧ (applyConnUpdate s u).qr_code = some (qrDataURL q))
    ∧ (∀ (s : Snapshot) (u : ConnUpdate),
        u.connection = some "open" → u.qr = none →
        (applyConnUpdate s u).status = "connected" ∧ (applyConnUpdate s u).qr_code = none) := by
  refine ⟨runConnUpdates_connected_qr_none, ?_, ?_⟩
  · intro s u q hq hc
    constructor <;> simp [applyConnUpdate, hq, hc]
  · intro s u ho hq
    constructor <;> simp [applyConnUpdate, hq, ho]

/-- An initial status row with nothing set. -/
def snap0 : Snapshot := ⟨"disconnected", none, none, none, none⟩

/-- A pairing event carrying a QR payload. -/
def evQR : ConnUpdate := ⟨none, some "QRDATA", none, none, 0⟩

/-- A close event with no status code on the error. -/
def evCloseNone : ConnUpdate := ⟨some "close", none, none, none, 1⟩

/-- A close event carrying the logged-out status code. -/
def evClose401 : ConnUpdate := ⟨some "close", none, some 401, none, 2⟩

/-- C1 (counterexample): after a QR event followed by a close event the
status is disconnected while qr_code is still the rendered QR image, so the
claim that qr_code is null after any event that makes the status
disconnected is false on the code. -/
theorem qr_survives_close :
    (runConnUpdates snap0 [evQR, evCloseNone]).status = "disconnected"
    ∧ (runConnUpdates snap0 [evQR, evCloseNone]).qr_code = some (qrDataURL "QRDATA")
    ∧ (runConnUpdates snap0 [evQR, evCloseNone]).qr_code ≠ none := by
  refine ⟨rfl, rfl, ?_⟩
  decide

/-- C1 (witness): the amended theorem applied to a concrete QR event. -/
theorem qr_lifecycle_spec_witness :
    (applyConnUpdate snap0 evQR).status = "connecting"
    ∧ (applyConnUpdate snap0 evQR).qr_code = some (qrDataURL "QRDATA") :=
  qr_lifecycle_spec.2.1 snap0 evQR "QRDATA" rfl rfl

/-- C4 (confirmed): a close event publishes status disconnected and
last_error equal to the close-reason text, which is the logged-out message
exactly for the logged-out status code, and otherwise names the code, with
unknown substituted when no code is present. -/
theorem close_event_spec :
    ∀ (s : Snapshot) (u : ConnUpdate), u.connection = some "close" →
      (applyConnUpdate s u).status = "disconnected"
      ∧ (applyConnUpdate s u).last_error = some (closeReasonText u.lastDisconnectCode)
      ∧ closeReasonText (some disconnectReasonLoggedOut) = "Logged out"
      ∧ (∀ c : Nat, c ≠ disconnectReasonLoggedOut →
          closeReasonText (some c) = "Connection closed (" ++ toString c ++ ")")
      ∧ closeReasonText none = "Connection closed (unknown)" := by
  intro s u hc
  refine ⟨?_, ?_, ?_, ?_, ?_⟩
  · simp [applyConnUpdate, hc]
  · simp [applyConnUpdate, hc]
  · simp [closeReasonText]
  · intro c hne
    simp [closeReasonText, hne]
  · decide

/-- C4 (witness): a close with the logged-out code, and a close with no
code, evaluated concretely. -/
theorem close_event_spec_witness :
    ((applyConnUpdate snap0 evClose401).status = "disconnected"
      ∧ (applyConnUpdate snap0 evClose401).last_error = some (closeReasonText (some 401)))
    ∧ (applyConnUpdate snap0 evCloseNone).last_error
        = some (closeReasonText none) :=
  ⟨⟨(close_event_spec snap0 evClose401 rfl).1, (close_event_spec snap0 evClose401 rfl).2.1⟩,
    (close_event_spec snap0 evCloseNone rfl).2.1⟩

theorem keys_length (l : List (String × String)) : (keys l).length = l.length := by
  induction l with
  | nil => rfl
  | cons e rest ih => simp [keys, ih]

theorem mem_keys_of_mem (l : List (String × String)) (e : String × String) (h : e ∈ l) :
    e.1 ∈ keys l := by
  induction l with
  | nil => cases h
  | cons a rest ih =>
    rcases List.mem_cons.mp h with h2 | h2
    · simp [keys, h2]
    · simp [keys, ih h2]

theorem filter_not_mem_keys_nil (l : List (String × String)) :
    l.filter (fun e => !(decide (e.1 ∈ keys l))) = [] := by
  rw [List.filter_eq_nil_iff]
  intro e he
  simp [mem_keys_of_mem l e he]

theorem clearAuthStorage_of_remote_nil (env : StoreEnv) (s : StoreState) (h : s.remote = []) :
    clearAuthStorage env s = s := by
  by_cases hl : env.listFails
  · simp [clearAuthStorage, hl]
  · simp [clearAuthStorage, hl, h, listedNames, keys]

theorem clearAuthStorage_localDir_eq (env : StoreEnv) (s : StoreState) :
    (clearAuthStorage env s).localDir = s.localDir := by
  by_cases hl : env.listFails
  · simp [clearAuthStorage, hl]
  · by_cases he : (listedNames s.remote).isEmpty
    · simp [clearAuthStorage, hl, he]
    · simp [clearAuthStorage, hl, he]

/-- C2 (amended): with a working listing of at most 1000 remote entries,
clearAuthStorage empties the remote session folder in its one batch remove
call, is a no-op without error when no remote entries exist, and is safe to
call twice; it leaves the local credential folder untouched (the local
folder is only removed by the clear_session control branch, separately). -/
theorem clearAuthStorage_spec :
    ∀ (env : StoreEnv) (s : StoreState), env.listFails = false → s.remote.length ≤ 1000 →
      (clearAuthStorage env s).remote = []
      ∧ (clearAuthStorage env s).localDir = s.localDir
      ∧ (s.remote = [] → clearAuthStorage env s = s)
      ∧ clearAuthStorage env (clearAuthStorage env s) = clearAuthStorage env s := by
  intro env s hl hlen
  have hnames : listedNames s.remote = keys s.remote := by
    unfold listedNames
    apply List.take_of_length_le
    rw [keys_length]
    exact hlen
  have hrem : (clearAuthStorage env s).remote = [] := by
    by_cases he : s.remote = []
    · rw [clearAuthStorage_of_remote_nil env s he, he]
    · have hne : (listedNames s.remote).isEmpty = false := by
        rw [hnames]
        cases hr : s.remote with
        | nil => exact absurd hr he
        | cons a as => simp [keys]
      have hstep : clearAuthStorage env s
          = { s with remote := s.remote.filter (fun e => !(decide (e.1 ∈ listedNames s.remote))) } := by
        simp [clearAuthStorage, hl, hne]
      rw [hstep]
      show s.remote.filter (fun e => !(decide (e.1 ∈ listedNames s.remote))) = []
      rw [hnames]
      exact filter_not_mem_keys_nil s.remote
  refine ⟨hrem, clearAuthStorage_localDir_eq env s, clearAuthStorage_of_remote_nil env s, ?_⟩
  exact clearAuthStorage_of_remote_nil env _ hrem

/-- A store environment in which every remote operation succeeds. -/
def env0 : StoreEnv := ⟨false, fun _ => false, fun _ => false⟩

/-- A store with one remote credential object and one local credential file. -/
def store0 : StoreState :=
  ⟨true, [("creds.json", "remote-creds")], some [("creds.json", "local-creds")]⟩

/-- C2 (counterexample): clearAuthStorage removes the remote entries but
does not remove the local credential folder, which still holds its file
afterwards; the claim that clearAuthStorage removes the local folder is
false on the code. -/
theorem clearAuthStorage_keeps_localDir :
    (clearAuthStorage env0 store0).remote = []
    ∧ (clearAuthStorage env0 store0).localDir = some [("creds.json", "local-creds")]
    ∧ (clearAuthStorage env0 store0).localDir ≠ none := by
  refine ⟨?_, ?_, ?_⟩ <;> decide

/-- C2 (witness): the amended theorem applied to the concrete store. -/
theorem clearAuthStorage_spec_witness :
    env0.listFails = false ∧ store0.remote.length ≤ 1000
    ∧ (clearAuthStorage env0 store0).remote = []
    ∧ clearAuthStorage env0 (clearAuthStorage env0 store0) = clearAuthStorage env0 store0 :=
  ⟨rfl, by decide,
    (clearAuthStorage_spec env0 store0 rfl (by decide)).1,
    (clearAuthStorage_spec env0 store0 rfl (by decide)).2.2.2⟩

/-- C5 (confirmed): syncAuthToStorage attempts one upload per local file,
each at the session key of that file name, with upsert semantics: a key
already present remotely is overwritten in place, never duplicated.  Every
upload whose own failure flag is off lands regardless of other uploads
failing, each failure is reported, and the call never throws (it is a total
function of the environment and state). -/
theorem syncAuthToStorage_spec :
    ∀ (env : StoreEnv) (s : StoreState),
      (syncUploadAttempts s).length = (localNames s).length
      ∧ syncUploadAttempts s = (localNames s).map uploadPath
      ∧ ((localNames s).Nodup → ∀ n, n ∈ localNames s → env.uploadFails n = false →
          getVal (syncAuthToStorage env s).remote n
            = some ((getVal (s.localDir.getD []) n).getD ""))
      ∧ ((keys s.remote).Nodup → (keys (syncAuthToStorage env s).remote).Nodup)
      ∧ (∀ n, n ∈ localNames s → env.uploadFails n = true → n ∈ syncReportedFailures env s)
      ∧ (syncAuthToStorage env s).localDir = some (s.localDir.getD []) := by
  intro env s
  refine ⟨by simp [syncUploadAttempts], rfl, ?_, ?_, ?_, rfl⟩
  · intro hd n hn hf
    exact getVal_writeAll_mem env.uploadFails
      (fun m => (getVal (s.localDir.getD []) m).getD "") (keys (s.localDir.getD []))
      s.remote n hd hn hf
  · intro h
    exact keys_nodup_writeAll env.uploadFails
      (fun m => (getVal (s.localDir.getD []) m).getD "") (keys (s.localDir.getD []))
      s.remote h
  · intro n hn hf
    exact List.mem_filter.mpr ⟨hn, hf⟩

/-- An environment in which only the upload of app-state.json fails. -/
def env1 : StoreEnv := ⟨false, fun _ => false, fun n => decide (n = "app-state.json")⟩

/-- A store with an empty remote folder and two local credential files. -/
def store1 : StoreState :=
  ⟨true, [], some [("creds.json", "c1"), ("app-state.json", "a1")]⟩

/-- C5 (witness): with one of two uploads failing, the other file still
lands remotely and the failing one is reported. -/
theorem syncAuthToStorage_spec_witness :
    (localNames store1).Nodup
    ∧ env1.uploadFails "creds.json" = false
    ∧ getVal (syncAuthToStorage env1 store1).remote "creds.json" = some "c1"
    ∧ "app-state.json" ∈ syncReportedFailures env1 store1 :=
  ⟨by decide, by decide,
    (syncAuthToStorage_spec env1 store1).2.2.1 (by decide) "creds.json" (by decide) (by decide),
    (syncAuthToStorage_spec env1 store1).2.2.2.2.1 "app-state.json" (by decide) (by decide)⟩

theorem loadAuthFromStorage_eq_of_listed (env : StoreEnv) (s : StoreState)
    (hl : env.listFails = false) (hne : (listedNames s.remote).isEmpty = false) :
    loadAuthFromStorage env s
      = ⟨true, s.remote,
          some (writeAll (loadSkip env s.remote) (fun n => (getVal s.remote n).getD "")
            (listedNames s.remote) (s.localDir.getD []))⟩ := by
  simp [loadAuthFromStorage, ensureStorageBucket, ensureAuthFolder, hl, hne]

/-- C6 (confirmed): loadAuthFromStorage always leaves an existing local
folder and an existing bucket, never changes the remote state, returns with
no error and no further effect when the listing fails or is empty, copies
every listed downloadable entry into the local folder overwriting the local
copy, and on a per-file download failure leaves that local entry as it was
while the other files still land. -/
theorem loadAuthFromStorage_spec :
    ∀ (env : StoreEnv) (s : StoreState),
      ((loadAuthFromStorage env s).localDir).isSome = true
      ∧ (loadAuthFromStorage env s).bucketExists = true
      ∧ (loadAuthFromStorage env s).remote = s.remote
      ∧ (env.listFails = true →
          loadAuthFromStorage env s = ensureStorageBucket (ensureAuthFolder s))
      ∧ (listedNames s.remote = [] →
          loadAuthFromStorage env s = ensureStorageBucket (ensureAuthFolder s))
      ∧ ((listedNames s.remote).Nodup → env.listFails = false →
          ∀ n c, n ∈ listedNames s.remote → n ≠ "" → endsWithSlash n = false →
            env.downloadFails n = false → getVal s.remote n = some c →
            getVal ((loadAuthFromStorage env s).localDir.getD []) n = some c)
      ∧ ((listedNames s.remote).Nodup → env.listFails = false →
          ∀ n, n ∈ listedNames s.remote → env.downloadFails n = true →
            getVal ((loadAuthFromStorage env s).localDir.getD []) n
              = getVal (s.localDir.getD []) n) := by
  intro env s
  have hbase : ∀ (b : Bool) (r : List (String × String)) (d : Option (List (String × String))),
      (StoreState.mk b r d).remote = r := fun _ _ _ => rfl
  refine ⟨?_, ?_, ?_, ?_, ?_, ?_, ?_⟩
  · by_cases hl : env.listFails
    · simp [loadAuthFromStorage, hl, ensureStorageBucket, ensureAuthFolder]
    · by_cases hne : (listedNames s.remote).isEmpty
      · simp [loadAuthFromStorage, hl, hne, ensureStorageBucket, ensureAuthFolder]
      · simp [loadAuthFromStorage, hl, hne, ensureStorageBucket, ensureAuthFolder]
  · by_cases hl : env.listFails
    · simp [loadAuthFromStorage, hl, ensureStorageBucket, ensureAuthFolder]
    · by_cases hne : (listedNames s.remote).isEmpty
      · simp [loadAuthFromStorage, hl, hne, ensureStorageBucket, ensureAuthFolder]
      · simp [loadAuthFromStorage, hl, hne, ensureStorageBucket, ensureAuthFolder]
  · by_cases hl : env.listFails
    · simp [loadAuthFromStorage, hl, ensureStorageBucket, ensureAuthFolder]
    · by_cases hne : (listedNames s.remote).isEmpty
      · simp [loadAuthFromStorage, hl, hne, ensureStorageBucket, ensureAuthFolder]
      · simp [loadAuthFromStorage, hl, hne, ensureStorageBucket, ensureAuthFolder]
  · intro hl
    simp [loadAuthFromStorage, hl]
  · intro hemp
    by_cases hl : env.listFails
    · simp [loadAuthFromStorage, hl]
    · simp [loadAuthFromStorage, hl, hemp, ensureStorageBucket, ensureAuthFolder]
  · intro hd hl n c hn hn0 hslash hdf hc
    have hne : (listedNames s.remote).isEmpty = false := by
      cases hns : listedNames s.remote with
      | nil => rw [hns] at hn; cases hn
      | cons a as => simp [hns]
    rw [loadAuthFromStorage_eq_of_listed env s hl hne]
    have hskip : loadSkip env s.remote n = false := by
      simp [loadSkip, hn0, hslash, hdf, hc]
    have := getVal_writeAll_mem (loadSkip env s.remote)
      (fun m => (getVal s.remote m).getD "") (listedNames s.remote)
      (s.localDir.getD []) n hd hn hskip
    rw [show ((StoreState.mk true s.remote
        (some (writeAll (loadSkip env s.remote) (fun m => (getVal s.remote m).getD "")
          (listedNames s.remote) (s.localDir.getD [])))).localDir.getD [])
        = writeAll (loadSkip env s.remote) (fun m => (getVal s.remote m).getD "")
          (listedNames s.remote) (s.localDir.getD []) from rfl]
    rw [this]
    simp [hc]
  · intro hd hl n hn hdf
    have hne : (listedNames s.remote).isEmpty = false := by
      cases hns : listedNames s.remote with
      | nil => rw [hns] at hn; cases hn
      | cons a as => simp [hns]
    rw [loadAuthFromStorage_eq_of_listed env s hl hne]
    have hskip : loadSkip env s.remote n = true := by
      simp [loadSkip, hdf]
    exact getVal_writeAll_skip (loadSkip env s.remote)
      (fun m => (getVal s.remote m).getD "") (listedNames s.remote)
      (s.localDir.getD []) n hd hn hskip

/-- An environment in which only the download of bad.json fails. -/
def env2 : StoreEnv := ⟨false, fun n => decide (n = "bad.json"), fun _ => false⟩

/-- A store with two remote credential objects and one stale local file. -/
def store2 : StoreState :=
  ⟨false, [("creds.json", "rc"), ("bad.json", "rb")], some [("bad.json", "old-local")]⟩

/-- C6 (witness): with one download failing, the other listed file is still
downloaded into the local folder, and the failing file keeps its old local
content. -/
theorem loadAuthFromStorage_spec_witness :
    (listedNames store2.remote).Nodup
    ∧ getVal ((loadAuthFromStorage env2 store2).localDir.getD []) "creds.json" = some "rc"
    ∧ getVal ((loadAuthFromStorage env2 store2).localDir.getD []) "bad.json"
        = getVal (store2.localDir.getD []) "bad.json" :=
  ⟨by decide,
    (loadAuthFromStorage_spec env2 store2).2.2.2.2.2.1 (by decide) rfl "creds.json" "rc"
      (by decide) (by decide) (by decide) (by decide) (by decide),
    (loadAuthFromStorage_spec env2 store2).2.2.2.2.2.2 (by decide) rfl "bad.json"
      (by decide) (by decide)⟩

theorem handleControl_restart_eq (env : StoreEnv) (s : SysState) :
    handleControl env (some "restart") s
      = ⟨⟨200, true, none⟩, (startWhatsApp env (teardownCurrent s).1).1,
          (teardownCurrent s).2 ++ (startWhatsApp env (teardownCurrent s).1).2⟩ := rfl

theorem handleControl_logout_eq (env : StoreEnv) (s : SysState) :
    handleControl env (some "logout") s
      = ⟨⟨200, true, none⟩,
          { (teardownCurrent s).1 with
            store := clearAuthStorage env (teardownCurrent s).1.store },
          (teardownCurrent s).2 ++ [Act.clearRemote]⟩ := rfl

theorem handleControl_clear_eq (env : StoreEnv) (s : SysState) :
    handleControl env (some "clear_session") s
      = ⟨⟨200, true, none⟩,
          (startWhatsApp env
            { (teardownCurrent s).1 with
              store := clearAuthStorage env
                { (teardownCurrent s).1.store with localDir := none } }).1,
          (teardownCurrent s).2 ++ [Act.rmLocalDir, Act.clearRemote]
            ++ (startWhatsApp env
              { (teardownCurrent s).1 with
                store := clearAuthStorage env
                  { (teardownCurrent s).1.store with localDir := none } }).2⟩ := rfl

theorem teardownCurrent_live_nil (s : SysState) (h : SocketInv s) :
    (teardownCurrent s).1.live = [] := by
  rcases h with h | ⟨g, hg, hw⟩
  · cases hwc : s.waSocket with
    | none => simp [teardownCurrent, hwc, h]
    | some g => simp [teardownCurrent, hwc, h]
  · simp [teardownCurrent, hw, hg]

theorem teardownCurrent_gen (s : SysState) : (teardownCurrent s).1.gen = s.gen := by
  cases hwc : s.waSocket with
  | none => simp [teardownCurrent, hwc]
  | some g => simp [teardownCurrent, hwc]

theorem teardownCurrent_trace (s : SysState) :
    (teardownCurrent s).2 = [] ∨ ∃ g, (teardownCurrent s).2 = [Act.teardown g] := by
  cases hwc : s.waSocket with
  | none => exact Or.inl (by simp [teardownCurrent, hwc])
  | some g => exact Or.inr ⟨g, by simp [teardownCurrent, hwc]⟩

theorem startWhatsApp_state (env : StoreEnv) (s : SysState) :
    (startWhatsApp env s).1.live = (s.gen + 1) :: s.live
    ∧ (startWhatsApp env s).1.waSocket = some (s.gen + 1)
    ∧ (startWhatsApp env s).2 = [Act.construct (s.gen + 1)] :=
  ⟨rfl, rfl, rfl⟩

theorem restart_state_facts (env : StoreEnv) (s : SysState) (h : SocketInv s) :
    SocketInv (handleControl env (some "restart") s).state
    ∧ (handleControl env (some "restart") s).state.live.length = 1 := by
  rw [handleControl_restart_eq]
  have hnil := teardownCurrent_live_nil s h
  have hlive : (startWhatsApp env (teardownCurrent s).1).1.live
      = [(teardownCurrent s).1.gen + 1] := by
    rw [(startWhatsApp_state env (teardownCurrent s).1).1, hnil]
  refine ⟨Or.inr ⟨(teardownCurrent s).1.gen + 1, hlive, ?_⟩, by rw [hlive]; rfl⟩
  exact (startWhatsApp_state env (teardownCurrent s).1).2.1

theorem logout_state_facts (env : StoreEnv) (s : SysState) (h : SocketInv s) :
    SocketInv (handleControl env (some "logout") s).state
    ∧ (handleControl env (some "logout") s).state.live.length ≤ 1 := by
  rw [handleControl_logout_eq]
  have hnil := teardownCurrent_live_nil s h
  have hlive : ({ (teardownCurrent s).1 with
      store := clearAuthStorage env (teardownCurrent s).1.store } : SysState).live = [] := hnil
  exact ⟨Or.inl hlive, by rw [hlive]; exact Nat.zero_le 1⟩

theorem clear_state_facts (env : StoreEnv) (s : SysState) (h : SocketInv s) :
    SocketInv (handleControl env (some "clear_session") s).state
    ∧ (handleControl env (some "clear_session") s).state.live.length = 1 := by
  rw [handleControl_clear_eq]
  have hnil := teardownCurrent_live_nil s h
  have hlive : (startWhatsApp env
      { (teardownCurrent s).1 with
        store := clearAuthStorage env
          { (teardownCurrent s).1.store with localDir := none } }).1.live
      = [(teardownCurrent s).1.gen + 1] := by
    rw [(startWhatsApp_state env _).1]
    show ((teardownCurrent s).1.gen + 1) :: (teardownCurrent s).1.live = _
    rw [hnil]
  refine ⟨Or.inr ⟨(teardownCurrent s).1.gen + 1, hlive, ?_⟩, by rw [hlive]; rfl⟩
  exact (startWhatsApp_state env _).2.1

theorem restart_trace_ordered (env : StoreEnv) (s : SysState) :
    tdBeforeCons (handleControl env (some "restart") s).trace = true := by
  rw [handleControl_restart_eq]
  show tdBeforeCons ((teardownCurrent s).2
    ++ (startWhatsApp env (teardownCurrent s).1).2) = true
  rw [(startWhatsApp_state env (teardownCurrent s).1).2.2]
  rcases teardownCurrent_trace s with ht | ⟨g, ht⟩ <;> rw [ht] <;> rfl

theorem logout_trace_ordered (env : StoreEnv) (s : SysState) :
    tdBeforeCons (handleControl env (some "logout") s).trace = true := by
  rw [handleControl_logout_eq]
  show tdBeforeCons ((teardownCurrent s).2 ++ [Act.clearRemote]) = true
  rcases teardownCurrent_trace s with ht | ⟨g, ht⟩ <;> rw [ht] <;> rfl

theorem clear_trace_ordered (env : StoreEnv) (s : SysState) :
    tdBeforeCons (handleControl env (some "clear_session") s).trace = true := by
  rw [handleControl_clear_eq]
  show tdBeforeCons ((teardownCurrent s).2 ++ [Act.rmLocalDir, Act.clearRemote]
    ++ (startWhatsApp env
      { (teardownCurrent s).1 with
        store := clearAuthStorage env
          { (teardownCurrent s).1.store with localDir := none } }).2) = true
  rw [(startWhatsApp_state env _).2.2]
  rcases teardownCurrent_trace s with ht | ⟨g, ht⟩ <;> rw [ht] <;> rfl

/-- C3 (confirmed): starting from a state satisfying the single-live-socket
invariant, restart and clear_session leave exactly one live socket, logout
leaves at most one, the invariant holds again after each control operation,
and in every control trace each teardown of the previous socket precedes
the construction of the new one. -/
theorem control_single_socket :
    ∀ (env : StoreEnv) (s : SysState), SocketInv s →
      (SocketInv (handleControl env (some "restart") s).state
        ∧ (handleControl env (some "restart") s).state.live.length = 1
        ∧ tdBeforeCons (handleControl env (some "restart") s).trace = true)
      ∧ (SocketInv (handleControl env (some "logout") s).state
        ∧ (handleControl env (some "logout") s).state.live.length ≤ 1
        ∧ tdBeforeCons (handleControl env (some "logout") s).trace = true)
      ∧ (SocketInv (handleControl env (some "clear_session") s).state
        ∧ (handleControl env (some "clear_session") s).state.live.length = 1
        ∧ tdBeforeCons (handleControl env (some "clear_session") s).trace = true) := by
  intro env s h
  exact ⟨⟨(restart_state_facts env s h).1, (restart_state_facts env s h).2,
      restart_trace_ordered env s⟩,
    ⟨(logout_state_facts env s h).1, (logout_state_facts env s h).2,
      logout_trace_ordered env s⟩,
    ⟨(clear_state_facts env s h).1, (clear_state_facts env s h).2,
      clear_trace_ordered env s⟩⟩

/-- A freshly booted process state with no socket yet. -/
def sys0 : SysState := ⟨store0, 0, [], none⟩

/-- C3 (witness): a restart from the empty state leaves one live socket. -/
theorem control_single_socket_witness :
    SocketInv sys0 ∧ (handleControl env0 (some "restart") sys0).state.live.length = 1 :=
  ⟨Or.inl rfl, (control_single_socket env0 sys0 (Or.inl rfl)).1.2.1⟩

/-- C8 (confirmed): a missing action and an unknown action each answer 400
with an error message and leave the whole state untouched with no socket or
store action performed, while each of the three known actions answers
success. -/
theorem control_validation :
    ∀ (env : StoreEnv) (s : SysState) (action : Option String),
      (falsyStr action = true →
        handleControl env action s = ⟨⟨400, false, some "Action required."⟩, s, []⟩)
      ∧ (∀ a, action = some a → a ≠ "" → a ≠ "restart" → a ≠ "logout" → a ≠ "clear_session" →
        handleControl env action s = ⟨⟨400, false, some "Invalid action."⟩, s, []⟩)
      ∧ ((action = some "restart" ∨ action = some "logout" ∨ action = some "clear_session") →
        (handleControl env action s).resp = ⟨200, true, none⟩) := by
  intro env s action
  refine ⟨?_, ?_, ?_⟩
  · intro hf
    simp [handleControl, hf]
  · intro a ha ha0 h1 h2 h3
    subst ha
    simp [handleControl, falsyStr, ha0, h1, h2, h3]
  · rintro (h | h | h) <;> subst h <;> rfl

/-- C8 (witness): a bogus action, a missing action, and restart, evaluated
on the concrete boot state. -/
theorem control_validation_witness :
    handleControl env0 (some "bogus") sys0 = ⟨⟨400, false, some "Invalid action."⟩, sys0, []⟩
    ∧ handleControl env0 none sys0 = ⟨⟨400, false, some "Action required."⟩, sys0, []⟩
    ∧ (handleControl env0 (some "restart") sys0).resp = ⟨200, true, none⟩ :=
  ⟨(control_validation env0 sys0 (some "bogus")).2.1 "bogus" rfl
      (by decide) (by decide) (by decide) (by decide),
    (control_validation env0 sys0 none).1 rfl,
    (control_validation env0 sys0 (some "restart")).2.2 (Or.inl rfl)⟩

/-- C9 (counterexample): on a startup failure the catch handler publishes
last_error "Failed to start WhatsApp", not the exact string "failed to
start" the claim states. -/
theorem boot_failure_message :
    (bootWithCatch env0 true sys0).published
      = [("disconnected", some "Failed to start WhatsApp")]
    ∧ (bootWithCatch env0 true sys0).published
        ≠ [("disconnected", some "failed to start")] := by
  exact ⟨rfl, by decide⟩

/-- C9 (amended): when startWhatsApp throws during startup the rejection is
caught, the snapshot patch status disconnected with last_error "Failed to
start WhatsApp" is published, the state is left as it was, and a later
restart still yields one live socket. -/
theorem boot_failure_spec :
    ∀ (env : StoreEnv) (s : SysState),
      bootWithCatch env true s = ⟨s, [("disconnected", some "Failed to start WhatsApp")]⟩
      ∧ (SocketInv s →
          (handleControl env (some "restart") (bootWithCatch env true s).state).state.live.length
            = 1) := by
  intro env s
  refine ⟨rfl, ?_⟩
  intro h
  exact (restart_state_facts env s h).2

/-- C9 (witness): the amended theorem applied to the concrete boot state. -/
theorem boot_failure_spec_witness :
    bootWithCatch env0 true sys0 = ⟨sys0, [("disconnected", some "Failed to start WhatsApp")]⟩
    ∧ (handleControl env0 (some "restart") (bootWithCatch env0 true sys0).state).state.live.length
        = 1 :=
  ⟨(boot_failure_spec env0 sys0).1, (boot_failure_spec env0 sys0).2 (Or.inl rfl)⟩

/-- C7 (confirmed): a well-formed send-otp request that arrives while no
socket exists, or while the socket has no authenticated user, is answered
with the 503 not-connected failure, and the handler performs no status
write and sends nothing, so the status snapshot is untouched. -/
theorem sendOtp_not_connected :
    ∀ (sock : Option WaSocket) (sendErr : Option String) (pn msg : Option String),
      falsyStr pn = false → falsyStr msg = false →
      (sock = none ∨ ∃ w, sock = some w ∧ w.user = none) →
      handleSendOtp sock sendErr pn msg
        = ⟨⟨503, false, some "WhatsApp service is not connected."⟩, [], []⟩ := by
  intro sock sendErr pn msg hp hm hs
  rcases hs with h | ⟨w, hw, hu⟩
  · subst h
    simp [handleSendOtp, hp, hm]
  · subst hw
    simp [handleSendOtp, hp, hm, hu]

/-- C7 (witness): a socket without an authenticated user answers the
not-connected failure for a concrete request. -/
theorem sendOtp_not_connected_witness :
    handleSendOtp (some ⟨none⟩) none (some "15551234567") (some "hello")
      = ⟨⟨503, false, some "WhatsApp service is not connected."⟩, [], []⟩ :=
  sendOtp_not_connected (some ⟨none⟩) none (some "15551234567") (some "hello")
    rfl rfl (Or.inr ⟨⟨none⟩, rfl, rfl⟩)

theorem filter_isDigit_idem (l : List Char) :
    (l.filter Char.isDigit).filter Char.isDigit = l.filter Char.isDigit := by
  induction l with
  | nil => rfl
  | cons c rest ih =>
    by_cases h : Char.isDigit c
    · simp [List.filter_cons, h, ih]
    · simp [List.filter_cons, h, ih]

/-- C10 (confirmed): the chat id forwarded by the send handler is the
digits of the phone number with the transport domain appended, so inputs
with the same digit sequence land in the same chat, and the digit-keeping
normalization is idempotent. -/
theorem sendOtp_chatId_spec :
    (∀ a b : String, digitsOf a = digitsOf b → chatIdOf a = chatIdOf b)
    ∧ (∀ a : String, digitsOf (digitsOf a) = digitsOf a)
    ∧ (∀ a : String, chatIdOf a = digitsOf a ++ "@s.whatsapp.net")
    ∧ (∀ (u : WaUser) (pn msg : String),
        falsyStr (some pn) = false → falsyStr (some msg) = false →
        (handleSendOtp (some ⟨some u⟩) none (some pn) (some msg)).sent
          = [(chatIdOf pn, msg)]) := by
  refine ⟨?_, ?_, fun a => rfl, ?_⟩
  · intro a b h
    show digitsOf a ++ "@s.whatsapp.net" = digitsOf b ++ "@s.whatsapp.net"
    rw [h]
  · intro a
    show String.mk (((String.mk (a.data.filter Char.isDigit)).data).filter Char.isDigit)
      = String.mk (a.data.filter Char.isDigit)
    rw [show (String.mk (a.data.filter Char.isDigit)).data
      = a.data.filter Char.isDigit from rfl]
    rw [filter_isDigit_idem]
  · intro u pn msg hp hm
    simp [handleSendOtp, hp, hm]

/-- C10 (witness): a formatted number and its bare digit sequence give the
same chat id. -/
theorem sendOtp_chatId_spec_witness :
    digitsOf "+1 (555) 123-4567" = digitsOf "15551234567"
    ∧ chatIdOf "+1 (555) 123-4567" = chatIdOf "15551234567" :=
  ⟨by decide, sendOtp_chatId_spec.1 "+1 (555) 123-4567" "15551234567" (by decide)⟩

end WA
